import Mathlib

/-!
A shallow embedding, in Lean 4, of the CHIP-8 emulator core of this
repository (the most feature-complete variant: src/system.rs together with
src/display.rs, src/memory.rs, src/keyboard.rs and src/system/registers.rs).

Modelling conventions:
- Machine integers (u8, u16, usize) are embedded as Nat.  Arithmetic that the
  Rust release profile performs with two's-complement wraparound is embedded
  with an explicit modulus (wrap8, wrap16, u8sub below); this matches the
  only profile in which the emulator is runnable at all, since several
  opcodes (8xy5, 8xy7, 7xkk) rely on wrapping.
- A Vec index that can actually be out of bounds at runtime (the call stack,
  RAM accesses driven by the I register, the 15-element keyboard vector) is
  embedded as an Option-returning operation, where none models the Rust
  panic (an abort of the process, never a Result value).  Indices that are
  structurally in bounds (general-purpose registers indexed by a nibble,
  display cells reduced mod 2048) are embedded with the total List.set and
  List.getD, whose out-of-range branches are unreachable there.
- Fallible opcode execution returns Option (Except ExError ChipSystem):
  some (Except.ok s) is normal completion, some (Except.error e) is the
  ExResult error return of ex_opcode, and none is a panic (or, for the
  blocking Fx0A wait with no key pressed, an execution that never returns).
- The terminal-printing calls (draw_display, println) are pure output and
  have no effect on the machine state; they are omitted.
-/

def wrap8 (a : Nat) : Nat := a % 256

def wrap16 (a : Nat) : Nat := a % 65536

/-- Two's-complement wrapping subtraction on bytes: for a b < 256 this is the
Rust release-profile value of the u8 expression a - b. -/
def u8sub (a b : Nat) : Nat := (a + 256 - b) % 256

/-! ## ChipRegisters (src/system/registers.rs) -/

/-- The register file of the emulator: 16 general purpose u8 registers, a
16-slot u16 call stack, the I register, the delay and sound timers, the
program counter and the stack pointer. -/
structure ChipRegisters where
  gp_reg : List Nat
  stack : List Nat
  i_reg : Nat
  d_reg : Nat
  s_reg : Nat
  pc_reg : Nat
  sp_reg : Nat
deriving Repr, DecidableEq

def ChipRegisters.init : ChipRegisters :=
  { gp_reg := List.replicate 16 0
    stack := List.replicate 16 0
    i_reg := 0
    d_reg := 0
    s_reg := 0
    pc_reg := 0
    sp_reg := 0 }

/-- Set a general purpose register.  Every call site passes a nibble, which
is below the fixed length 16 of gp_reg, so the total List.set agrees with the
Rust indexed store there. -/
def ChipRegisters.set_gp (r : ChipRegisters) (index value : Nat) : ChipRegisters :=
  { r with gp_reg := r.gp_reg.set index value }

def ChipRegisters.get_gp (r : ChipRegisters) (index : Nat) : Nat :=
  r.gp_reg.getD index 0

/-- Add a value to a general purpose register (u8 wrapping addition). -/
def ChipRegisters.add_gp (r : ChipRegisters) (index value : Nat) : ChipRegisters :=
  { r with gp_reg := r.gp_reg.set index (wrap8 (r.gp_reg.getD index 0 + value)) }

def ChipRegisters.set_i (r : ChipRegisters) (value : Nat) : ChipRegisters :=
  { r with i_reg := value }

def ChipRegisters.get_i (r : ChipRegisters) : Nat := r.i_reg

def ChipRegisters.set_pc (r : ChipRegisters) (value : Nat) : ChipRegisters :=
  { r with pc_reg := value }

def ChipRegisters.incr_pc (r : ChipRegisters) : ChipRegisters :=
  { r with pc_reg := wrap16 (r.pc_reg + 2) }

def ChipRegisters.get_pc (r : ChipRegisters) : Nat := r.pc_reg

def ChipRegisters.get_d (r : ChipRegisters) : Nat := r.d_reg

def ChipRegisters.set_d (r : ChipRegisters) (value : Nat) : ChipRegisters :=
  { r with d_reg := value }

def ChipRegisters.get_s (r : ChipRegisters) : Nat := r.s_reg

def ChipRegisters.set_s (r : ChipRegisters) (value : Nat) : ChipRegisters :=
  { r with s_reg := value }

def ChipRegisters.decr_d (r : ChipRegisters) : ChipRegisters :=
  if r.d_reg > 0 then { r with d_reg := r.d_reg - 1 } else r

def ChipRegisters.decr_s (r : ChipRegisters) : ChipRegisters :=
  if r.s_reg > 0 then { r with s_reg := r.s_reg - 1 } else r

/-- Push an address onto the call stack.  The Rust source performs the
unchecked indexed store stack[sp_reg] = addr and then increments sp_reg; when
sp_reg is not below the stack length the indexed store panics, which is
modelled by none. -/
def ChipRegisters.push_stack (r : ChipRegisters) (addr : Nat) : Option ChipRegisters :=
  if r.sp_reg < r.stack.length then
    some { r with stack := r.stack.set r.sp_reg addr, sp_reg := r.sp_reg + 1 }
  else
    none

/-- Pop an address from the call stack.  The Rust source decrements the usize
sp_reg and then reads stack[sp_reg]; when sp_reg is 0 the decrement underflows
(a panic in the debug profile, a wrap followed by an out-of-bounds index panic
in release), modelled by none in either profile. -/
def ChipRegisters.pop_stack (r : ChipRegisters) : Option (Nat × ChipRegisters) :=
  if r.sp_reg = 0 then
    none
  else if r.sp_reg - 1 < r.stack.length then
    some (r.stack.getD (r.sp_reg - 1) 0, { r with sp_reg := r.sp_reg - 1 })
  else
    none

/-! ## ChipMemory (src/memory.rs, the variant with the font table) -/

structure ChipMemory where
  ram : List Nat
  loaded : Bool
  start : Nat
deriving Repr, DecidableEq

/-- The 16 five-byte font glyphs for the hexadecimal digits 0 to F. -/
def hex_chars : List Nat :=
  [0xF0, 0x90, 0x90, 0x90, 0xF0,
   0x20, 0x60, 0x20, 0x20, 0x70,
   0xF0, 0x10, 0xF0, 0x80, 0xF0,
   0xF0, 0x10, 0xF0, 0x10, 0xF0,
   0x90, 0x90, 0xF0, 0x10, 0x10,
   0xF0, 0x80, 0xF0, 0x10, 0xF0,
   0xF0, 0x80, 0xF0, 0x90, 0xF0,
   0xF0, 0x10, 0x20, 0x40, 0x40,
   0xF0, 0x90, 0xF0, 0x90, 0xF0,
   0xF0, 0x90, 0xF0, 0x10, 0xF0,
   0xF0, 0x90, 0xF0, 0x90, 0x90,
   0xE0, 0x90, 0xE0, 0x90, 0xE0,
   0xF0, 0x80, 0x80, 0x80, 0xF0,
   0xE0, 0x90, 0x90, 0x90, 0xE0,
   0xF0, 0x80, 0xF0, 0x80, 0xF0,
   0xF0, 0x80, 0xF0, 0x80, 0x80]

/-- Write the font table into RAM at offset 0x050, one byte at a time (the
indices 0x50 to 0x9F are always inside the 4096-byte RAM). -/
def ChipMemory.load_symbols (ram : List Nat) : List Nat :=
  (List.range hex_chars.length).foldl
    (fun acc i => acc.set (i + 0x050) (hex_chars.getD i 0)) ram

def ChipMemory.init : ChipMemory :=
  { ram := ChipMemory.load_symbols (List.replicate 4096 0)
    loaded := false
    start := 512 }

/-- Store a byte into RAM; the Rust indexed store panics out of range,
modelled by none. -/
def ChipMemory.set_byte (m : ChipMemory) (loc val : Nat) : Option ChipMemory :=
  if loc < m.ram.length then some { m with ram := m.ram.set loc val } else none

/-- Read a byte from RAM; the Rust indexed read panics out of range,
modelled by none. -/
def ChipMemory.get_byte (m : ChipMemory) (loc : Nat) : Option Nat :=
  if loc < m.ram.length then some (m.ram.getD loc 0) else none

/-- Read nbytes bytes starting at loc; the u16 address addition wraps. -/
def ChipMemory.get_nbytes (m : ChipMemory) (loc : Nat) : Nat → Option (List Nat)
  | 0 => some []
  | n + 1 =>
    match m.get_nbytes loc n with
    | none => none
    | some bs =>
      match m.get_byte (wrap16 (loc + n)) with
      | none => none
      | some b => some (bs ++ [b])

/-- Load a ROM image into RAM starting at the start offset (512).  An image
larger than 3584 bytes runs past the end of RAM and panics, modelled by
none. -/
def ChipMemory.load_bytes (m : ChipMemory) (rom : List Nat) : Option ChipMemory :=
  (List.range rom.length).foldlM
    (fun acc i => acc.set_byte (i + acc.start) (rom.getD i 0)) m

def ChipMemory.get_opcode (m : ChipMemory) (index : Nat) : Option Nat :=
  match m.get_byte index with
  | none => none
  | some hi =>
    match m.get_byte (wrap16 (index + 1)) with
    | none => none
    | some lo => some (hi * 256 + lo)

/-! ## ChipKeyboard (src/keyboard.rs) -/

structure ChipKeyboard where
  keys : List Bool
deriving Repr, DecidableEq

/-- The source allocates the key vector with vec![false; 15], so it holds 15
entries, not 16. -/
def ChipKeyboard.init : ChipKeyboard :=
  { keys := List.replicate 15 false }

def ChipKeyboard.any_pressed (k : ChipKeyboard) : Bool :=
  (List.range 15).any (fun i => k.keys.getD i false)

def ChipKeyboard.which_pressed (k : ChipKeyboard) : Nat :=
  (((List.range 15).find? (fun i => k.keys.getD i false)).getD 16)

/-- Set a key state; the Rust indexed store panics when index is not below
the length of the key vector, modelled by none. -/
def ChipKeyboard.set_key (k : ChipKeyboard) (index : Nat) (value : Bool) : Option ChipKeyboard :=
  if index < k.keys.length then some { k with keys := k.keys.set index value } else none

/-- Read a key state; the Rust indexed read panics when index is not below
the length of the key vector, modelled by none. -/
def ChipKeyboard.get_key (k : ChipKeyboard) (index : Nat) : Option Bool :=
  if index < k.keys.length then some (k.keys.getD index false) else none

/-- Blocking wait for a key press.  With no key pressed the Rust loop sleeps
forever (in the single-threaded model nothing can change the keys), so the
call never returns, modelled by none; otherwise the lowest pressed index is
returned. -/
def ChipKeyboard.wait_key (k : ChipKeyboard) : Option Nat :=
  if k.any_pressed then some k.which_pressed else none

/-! ## ChipDisplay (src/display.rs, the variant with the modified flag) -/

structure ChipDisplay where
  display : List Bool
  modified : Bool
deriving Repr, DecidableEq

def ChipDisplay.init : ChipDisplay :=
  { display := List.replicate 2048 false
    modified := false }

/-- Consume-and-reset check of the modified flag, exactly as the source
writes it: return true and clear the flag when it is set, else false. -/
def ChipDisplay.mod_check (d : ChipDisplay) : Bool × ChipDisplay :=
  match d.modified with
  | true => (true, { d with modified := false })
  | false => (false, d)

def ChipDisplay.get_display (d : ChipDisplay) : List Bool := d.display

/-- Draw a sprite into the display buffer by XOR, returning the collision
flag together with the new display.  Transcribed from draw_sprite: for each
row and each of the 8 bit positions i (mask = 1 shifted left i times, so i
counts from the least significant bit), the cell at
(((y_loc + row) mod 32) * 64) + ((x_loc + i) mod 64) is XORed with bit i of
the row byte; the collision flag is set on the first true-to-false
transition.  The computed position is always below 2048, the fixed display
length, so the total List operations agree with the Rust indexed accesses.
The source does not touch the modified field here. -/
def ChipDisplay.draw_sprite (d : ChipDisplay) (x_loc y_loc : Nat) (sprite : List Nat) :
    Bool × ChipDisplay :=
  let row_count := sprite.length
  let res :=
    (List.range row_count).foldl
      (fun (st : List Bool × Bool) row =>
        (List.range 8).foldl
          (fun (st2 : List Bool × Bool) i =>
            let pos := (((y_loc + row) % 32) * 64) + ((x_loc + i) % 64)
            let init_val := st2.1.getD pos false
            let disp :=
              match Nat.testBit (sprite.getD row 0) i with
              | true => st2.1.set pos (xor (st2.1.getD pos false) true)
              | false => st2.1.set pos (xor (st2.1.getD pos false) false)
            let ret :=
              if st2.2 = false && init_val = true && disp.getD pos false = false then
                true
              else st2.2
            (disp, ret))
          st)
      (d.display, false)
  (res.2, { d with display := res.1 })

/-- Clear the display: the source loops over all 32 rows and 64 columns and
stores false at each cell.  The source does not touch the modified field. -/
def ChipDisplay.clear_display (d : ChipDisplay) : ChipDisplay :=
  { d with
    display :=
      (List.range 32).foldl
        (fun acc y =>
          (List.range 64).foldl (fun acc2 x => acc2.set (y * 64 + x) false) acc)
        d.display }

/-! ## ChipSystem and opcode execution (src/system.rs) -/

/-- The execution error of ex_opcode, carrying the offending opcode. -/
structure ExError where
  opcode : Nat
deriving Repr, DecidableEq

/-- A two-byte opcode split into its four nibbles. -/
structure Opcode where
  h1 : Nat
  v1 : Nat
  v2 : Nat
  v3 : Nat
deriving Repr, DecidableEq

/-- Decompose an opcode: in the source h1 = (opcode shifted right 12) masked
with 0xf and so on, which on a u16 value is division and remainder by powers
of two. -/
def Opcode.new (opcode : Nat) : Opcode :=
  { h1 := opcode / 4096 % 16
    v1 := opcode / 256 % 16
    v2 := opcode / 16 % 16
    v3 := opcode % 16 }

structure ChipSystem where
  registers : ChipRegisters
  display : ChipDisplay
  ram : ChipMemory
  keyboard : ChipKeyboard
deriving Repr, DecidableEq

def ChipSystem.init : ChipSystem :=
  { registers := ChipRegisters.init
    display := ChipDisplay.init
    ram := ChipMemory.init
    keyboard := ChipKeyboard.init }

/-- The Fx55 store loop: for loc in 0..x_range, store register loc at RAM
address i_val + loc (u16 addition).  None models the panic of an
out-of-bounds store. -/
def store_loop (r : ChipRegisters) (i_val : Nat) (m : ChipMemory) : Nat → Option ChipMemory
  | 0 => some m
  | n + 1 =>
    match store_loop r i_val m n with
    | none => none
    | some m2 => m2.set_byte (wrap16 (i_val + n)) (r.get_gp n)

/-- The Fx65 load loop: for loc in 0..x_range, load RAM address i_val + loc
into register loc.  The RAM is not mutated by the loop, so every read is from
the same memory m. -/
def load_loop (m : ChipMemory) (i_val : Nat) (r : ChipRegisters) : Nat → Option ChipRegisters
  | 0 => some r
  | n + 1 =>
    match load_loop m i_val r n with
    | none => none
    | some r2 =>
      match m.get_byte (wrap16 (i_val + n)) with
      | none => none
      | some b => some (r2.set_gp n b)

/-- Execute one opcode, transcribed branch for branch from ex_opcode in
src/system.rs.  The rand_byte argument stands for the byte the source draws
from rand::thread_rng in the 0xCxkk branch.  Each dispatch branch yields the
updated system together with the update_pc flag; afterwards, when the flag is
still true, the program counter is incremented by 2 (the RET branch leaves
the flag true because the source has the update_pc = false line commented
out there). -/
def ChipSystem.ex_opcode (sys : ChipSystem) (opcode : Nat) (rand_byte : Nat) :
    Option (Except ExError ChipSystem) :=
  let comps := Opcode.new opcode
  let res : Option (Except ExError (ChipSystem × Bool)) :=
    if comps.h1 = 0x0 then
      if comps.v3 = 0 then
        some (Except.ok ({ sys with display := sys.display.clear_display }, true))
      else if comps.v3 = 14 then
        match sys.registers.pop_stack with
        | none => none
        | some (pc, r) => some (Except.ok ({ sys with registers := r.set_pc pc }, true))
      else
        some (Except.ok (sys, true))
    else if comps.h1 = 0x1 then
      let pc := comps.v1 * 256 + comps.v2 * 16 + comps.v3
      some (Except.ok ({ sys with registers := sys.registers.set_pc pc }, false))
    else if comps.h1 = 0x2 then
      let new_pc := comps.v1 * 256 + comps.v2 * 16 + comps.v3
      let cur_pc := sys.registers.get_pc
      match sys.registers.push_stack cur_pc with
      | none => none
      | some r => some (Except.ok ({ sys with registers := r.set_pc new_pc }, false))
    else if comps.h1 = 0x3 then
      let comp_val := comps.v2 * 16 + comps.v3
      let reg_val := sys.registers.get_gp comps.v1
      let r := if comp_val = reg_val then sys.registers.incr_pc else sys.registers
      some (Except.ok ({ sys with registers := r }, true))
    else if comps.h1 = 0x4 then
      let comp_val := comps.v2 * 16 + comps.v3
      let reg_val := sys.registers.get_gp comps.v1
      let r := if comp_val ≠ reg_val then sys.registers.incr_pc else sys.registers
      some (Except.ok ({ sys with registers := r }, true))
    else if comps.h1 = 0x5 then
      let reg_x_val := sys.registers.get_gp comps.v1
      let reg_y_val := sys.registers.get_gp comps.v2
      let r := if reg_x_val = reg_y_val then sys.registers.incr_pc else sys.registers
      some (Except.ok ({ sys with registers := r }, true))
    else if comps.h1 = 0x6 then
      let value := comps.v2 * 16 + comps.v3
      some (Except.ok ({ sys with registers := sys.registers.set_gp comps.v1 value }, true))
    else if comps.h1 = 0x7 then
      let value := comps.v2 * 16 + comps.v3
      some (Except.ok
        ({ sys with registers := sys.registers.add_gp comps.v1 (Nat.land value 0xff) }, true))
    else if comps.h1 = 0x8 then
      if comps.v3 = 0x0 then
        let reg_y_val := sys.registers.get_gp comps.v2
        some (Except.ok ({ sys with registers := sys.registers.set_gp comps.v1 reg_y_val }, true))
      else if comps.v3 = 0x1 then
        let value := Nat.lor (sys.registers.get_gp comps.v1) (sys.registers.get_gp comps.v2)
        some (Except.ok ({ sys with registers := sys.registers.set_gp comps.v1 value }, true))
      else if comps.v3 = 0x2 then
        let value := Nat.land (sys.registers.get_gp comps.v1) (sys.registers.get_gp comps.v2)
        some (Except.ok ({ sys with registers := sys.registers.set_gp comps.v1 value }, true))
      else if comps.v3 = 0x3 then
        let value := Nat.xor (sys.registers.get_gp comps.v1) (sys.registers.get_gp comps.v2)
        some (Except.ok ({ sys with registers := sys.registers.set_gp comps.v1 value }, true))
      else if comps.v3 = 0x4 then
        let holder := sys.registers.get_gp comps.v1 + sys.registers.get_gp comps.v2
        let r := if holder > 255 then sys.registers.set_gp 15 1 else sys.registers.set_gp 15 0
        some (Except.ok ({ sys with registers := r.set_gp comps.v1 (Nat.land holder 0xff) }, true))
      else if comps.v3 = 0x5 then
        let reg_x_val := sys.registers.get_gp comps.v1
        let reg_y_val := sys.registers.get_gp comps.v2
        let r := if reg_x_val < reg_y_val then sys.registers.set_gp 15 0
                 else sys.registers.set_gp 15 1
        let holder := u8sub reg_x_val reg_y_val
        some (Except.ok ({ sys with registers := r.set_gp comps.v1 holder }, true))
      else if comps.v3 = 0x6 then
        let reg_x_val := sys.registers.get_gp comps.v1
        let r := sys.registers.set_gp 15 (Nat.land reg_x_val 0x01)
        some (Except.ok ({ sys with registers := r.set_gp comps.v1 (reg_x_val / 2) }, true))
      else if comps.v3 = 0x7 then
        let reg_x_val := sys.registers.get_gp comps.v1
        let reg_y_val := sys.registers.get_gp comps.v2
        let r := if reg_y_val < reg_x_val then sys.registers.set_gp 15 0
                 else sys.registers.set_gp 15 1
        let holder := u8sub reg_y_val reg_x_val
        some (Except.ok ({ sys with registers := r.set_gp comps.v1 holder }, true))
      else if comps.v3 = 0xE then
        let reg_x_val := sys.registers.get_gp comps.v1
        let r := sys.registers.set_gp 15 (Nat.land reg_x_val 0x80)
        some (Except.ok ({ sys with registers := r.set_gp comps.v1 (wrap8 (reg_x_val * 2)) }, true))
      else
        some (Except.error { opcode := opcode })
    else if comps.h1 = 0x9 then
      let reg_x_val := sys.registers.get_gp comps.v1
      let reg_y_val := sys.registers.get_gp comps.v2
      let r := if reg_x_val ≠ reg_y_val then sys.registers.incr_pc else sys.registers
      some (Except.ok ({ sys with registers := r }, true))
    else if comps.h1 = 0xA then
      let value := comps.v1 * 256 + comps.v2 * 16 + comps.v3
      some (Except.ok ({ sys with registers := sys.registers.set_i value }, true))
    else if comps.h1 = 0xB then
      let reg_v0_val := sys.registers.get_gp 0
      let address := comps.v1 * 256 + comps.v2 * 16 + comps.v3
      some (Except.ok
        ({ sys with registers := sys.registers.set_pc (wrap16 (address + reg_v0_val)) }, false))
    else if comps.h1 = 0xC then
      let byte_val := comps.v2 * 16 + comps.v3
      let value := Nat.land byte_val rand_byte
      some (Except.ok ({ sys with registers := sys.registers.set_gp comps.v1 value }, true))
    else if comps.h1 = 0xD then
      let x_loc := sys.registers.get_gp comps.v1
      let y_loc := sys.registers.get_gp comps.v2
      let nbytes := comps.v3
      let sprite_mem_loc := sys.registers.get_i
      match sys.ram.get_nbytes sprite_mem_loc nbytes with
      | none => none
      | some sprite_bytes =>
        let drawn := sys.display.draw_sprite x_loc y_loc sprite_bytes
        let r := if drawn.1 then sys.registers.set_gp 15 1 else sys.registers.set_gp 15 0
        some (Except.ok ({ sys with registers := r, display := drawn.2 }, true))
    else if comps.h1 = 0xE then
      if comps.v2 * 16 + comps.v3 = 0x9E then
        match sys.keyboard.get_key comps.v1 with
        | none => none
        | some key_val =>
          let r := if key_val then sys.registers.incr_pc else sys.registers
          some (Except.ok ({ sys with registers := r }, true))
      else if comps.v2 * 16 + comps.v3 = 0xA1 then
        match sys.keyboard.get_key comps.v1 with
        | none => none
        | some key_val =>
          let r := if !key_val then sys.registers.incr_pc else sys.registers
          some (Except.ok ({ sys with registers := r }, true))
      else
        some (Except.error { opcode := opcode })
    else if comps.h1 = 0xF then
      if comps.v2 * 16 + comps.v3 = 0x07 then
        let delay_val := sys.registers.get_d
        some (Except.ok ({ sys with registers := sys.registers.set_gp comps.v1 delay_val }, true))
      else if comps.v2 * 16 + comps.v3 = 0x0A then
        match sys.keyboard.wait_key with
        | none => none
        | some key =>
          some (Except.ok ({ sys with registers := sys.registers.set_gp comps.v1 key }, true))
      else if comps.v2 * 16 + comps.v3 = 0x15 then
        some (Except.ok ({ sys with registers := sys.registers.set_d comps.v1 }, true))
      else if comps.v2 * 16 + comps.v3 = 0x18 then
        some (Except.ok ({ sys with registers := sys.registers.set_s comps.v1 }, true))
      else if comps.v2 * 16 + comps.v3 = 0x1E then
        let value := wrap16 (sys.registers.get_i + sys.registers.get_gp comps.v1)
        some (Except.ok ({ sys with registers := sys.registers.set_i value }, true))
      else if comps.v2 * 16 + comps.v3 = 0x29 then
        let reg_x_val := comps.v1
        let new_i_val := reg_x_val * 5
        some (Except.ok ({ sys with registers := sys.registers.set_i new_i_val }, true))
      else if comps.v2 * 16 + comps.v3 = 0x33 then
        let reg_val := sys.registers.get_gp comps.v1
        let i_val := sys.registers.get_i
        let ones := reg_val % 10
        let tens := reg_val / 10 % 10
        let huns := reg_val / 100 % 10
        match sys.ram.set_byte i_val huns with
        | none => none
        | some m1 =>
          match m1.set_byte (wrap16 (i_val + 1)) tens with
          | none => none
          | some m2 =>
            match m2.set_byte (wrap16 (i_val + 2)) ones with
            | none => none
            | some m3 => some (Except.ok ({ sys with ram := m3 }, true))
      else if comps.v2 * 16 + comps.v3 = 0x55 then
        let i_val := sys.registers.get_i
        let x_range := comps.v1
        match store_loop sys.registers i_val sys.ram x_range with
        | none => none
        | some m2 =>
          let r := sys.registers.set_i (wrap16 (i_val + x_range + 1))
          some (Except.ok ({ sys with ram := m2, registers := r }, true))
      else if comps.v2 * 16 + comps.v3 = 0x65 then
        let i_val := sys.registers.get_i
        let x_range := comps.v1
        match load_loop sys.ram i_val sys.registers x_range with
        | none => none
        | some r2 => some (Except.ok ({ sys with registers := r2 }, true))
      else
        some (Except.error { opcode := opcode })
    else
      some (Except.error { opcode := opcode })
  match res with
  | none => none
  | some (Except.error e) => some (Except.error e)
  | some (Except.ok (s, update_pc)) =>
    if update_pc then
      some (Except.ok { s with registers := s.registers.incr_pc })
    else
      some (Except.ok s)

/-! ## Observers used in the theorem statements -/

/-- Read a general purpose register out of a normally completed execution. -/
def exGP (res : Option (Except ExError ChipSystem)) (i : Nat) : Option Nat :=
  match res with
  | some (Except.ok s) => some (s.registers.get_gp i)
  | _ => none

/-- Read the I register out of a normally completed execution. -/
def exI (res : Option (Except ExError ChipSystem)) : Option Nat :=
  match res with
  | some (Except.ok s) => some s.registers.i_reg
  | _ => none

/-- Read the program counter out of a normally completed execution. -/
def exPC (res : Option (Except ExError ChipSystem)) : Option Nat :=
  match res with
  | some (Except.ok s) => some s.registers.pc_reg
  | _ => none

/-- Read the stack pointer out of a normally completed execution. -/
def exSP (res : Option (Except ExError ChipSystem)) : Option Nat :=
  match res with
  | some (Except.ok s) => some s.registers.sp_reg
  | _ => none

/-- Read the call stack out of a normally completed execution. -/
def exStack (res : Option (Except ExError ChipSystem)) : Option (List Nat) :=
  match res with
  | some (Except.ok s) => some s.registers.stack
  | _ => none

/-- Read a RAM byte out of a normally completed execution. -/
def exByte (res : Option (Except ExError ChipSystem)) (loc : Nat) : Option Nat :=
  match res with
  | some (Except.ok s) => some (s.ram.ram.getD loc 0)
  | _ => none

/-! ## Concrete scenario states used by the claim theorems -/

/-- A freshly initialized system whose program counter points at the
conventional program start 0x200. -/
def sys_at_200 : ChipSystem :=
  { ChipSystem.init with registers := ChipRegisters.init.set_pc 0x200 }

/-- Execute the CALL 0x300 opcode and then, in the resulting state, the RET
opcode. -/
def call_then_ret : Option (Except ExError ChipSystem) :=
  match sys_at_200.ex_opcode 0x2300 0 with
  | some (Except.ok s) => s.ex_opcode 0x00EE 0
  | _ => none

/-- Iterate the CALL 0x300 opcode n times from sys_at_200, stopping at the
first execution that does not complete normally. -/
def runCalls : Nat → Option ChipSystem
  | 0 => some sys_at_200
  | n + 1 =>
    match runCalls n with
    | none => none
    | some s =>
      match s.ex_opcode 0x2300 0 with
      | some (Except.ok s2) => some s2
      | _ => none

/-- The stack contents after 16 consecutive CALLs to 0x300 from PC = 0x200:
the first CALL pushes 0x200, every later one pushes 0x300. -/
def stack_after_16_calls : List Nat :=
  [0x200, 0x300, 0x300, 0x300, 0x300, 0x300, 0x300, 0x300,
   0x300, 0x300, 0x300, 0x300, 0x300, 0x300, 0x300, 0x300]

/-- A register file whose stack pointer already sits at the stack length,
as after 16 successful pushes. -/
def full_stack_regs : ChipRegisters :=
  { ChipRegisters.init with sp_reg := 16 }

/-- State for the Fx55 test: V0 = 7, I = 0x300. -/
def sys_store : ChipSystem :=
  { ChipSystem.init with registers := (ChipRegisters.init.set_gp 0 7).set_i 0x300 }

/-- State for the Fx65 test: I = 0x300 and RAM byte 0x300 = 9. -/
def sys_load : ChipSystem :=
  { ChipSystem.init with
    registers := ChipRegisters.init.set_i 0x300
    ram := { ChipMemory.init with ram := ChipMemory.init.ram.set 0x300 9 } }

/-- State for the Fx29 test: V1 = 0xA. -/
def sys_font : ChipSystem :=
  { ChipSystem.init with registers := ChipRegisters.init.set_gp 1 0xA }

/-- State for the 8xyE test: V1 = 0x80. -/
def sys_shl : ChipSystem :=
  { ChipSystem.init with registers := ChipRegisters.init.set_gp 1 0x80 }

/-- State for the 8xy5 x = 15 counterexample: V15 = 5, V14 = 3. -/
def sys_sub15 : ChipSystem :=
  { ChipSystem.init with registers := (ChipRegisters.init.set_gp 15 5).set_gp 14 3 }

/-- Register file holding the worked example of the spec for 8xy5:
V0 = 1, V1 = 2. -/
def sub_borrow_regs : ChipRegisters :=
  (ChipRegisters.init.set_gp 0 1).set_gp 1 2

/-! ## Helper lemmas about list updates and the Fx55/Fx65 loops -/

theorem getD_set_same (l : List Nat) (i v : Nat) (h : i < l.length) :
    (l.set i v).getD i 0 = v := by
  induction l generalizing i with
  | nil => simp at h
  | cons a t ih =>
    cases i with
    | zero => rfl
    | succ n =>
      simp only [List.set, List.getD, List.getElem?_cons_succ]
      have := ih n (by simpa using Nat.lt_of_succ_lt_succ h)
      simpa [List.getD] using this

theorem getD_set_other (l : List Nat) (i j v : Nat) (h : i ≠ j) :
    (l.set i v).getD j 0 = l.getD j 0 := by
  induction l generalizing i j with
  | nil => rfl
  | cons a t ih =>
    cases i with
    | zero =>
      cases j with
      | zero => exact absurd rfl h
      | succ m => rfl
    | succ n =>
      cases j with
      | zero => rfl
      | succ m =>
        simp only [List.set, List.getD, List.getElem?_cons_succ]
        have := ih n m (by omega)
        simpa [List.getD] using this

theorem store_loop_ok (r : ChipRegisters) (i_val : Nat) (m : ChipMemory) (n : Nat)
    (h : ∀ loc, loc < n → wrap16 (i_val + loc) < m.ram.length) :
    ∃ m2, store_loop r i_val m n = some m2 ∧ m2.ram.length = m.ram.length := by
  induction n with
  | zero => exact ⟨m, rfl, rfl⟩
  | succ k ih =>
    obtain ⟨m2, hm2, hlen⟩ := ih (fun loc hl => h loc (Nat.lt_succ_of_lt hl))
    have hb : wrap16 (i_val + k) < m2.ram.length := by
      rw [hlen]; exact h k (Nat.lt_succ_self k)
    refine ⟨{ m2 with ram := m2.ram.set (wrap16 (i_val + k)) (r.get_gp k) }, ?_, ?_⟩
    · simp [store_loop, hm2, ChipMemory.set_byte, hb]
    · simp [hlen]

theorem load_loop_ok (m : ChipMemory) (i_val : Nat) (r : ChipRegisters) (n : Nat)
    (h : ∀ loc, loc < n → wrap16 (i_val + loc) < m.ram.length) :
    ∃ r2, load_loop m i_val r n = some r2 ∧ r2.i_reg = r.i_reg := by
  induction n with
  | zero => exact ⟨r, rfl, rfl⟩
  | succ k ih =>
    obtain ⟨r2, hr2, hi⟩ := ih (fun loc hl => h loc (Nat.lt_succ_of_lt hl))
    have hb : wrap16 (i_val + k) < m.ram.length := h k (Nat.lt_succ_self k)
    refine ⟨r2.set_gp k (m.ram.getD (wrap16 (i_val + k)) 0), ?_, ?_⟩
    · simp [load_loop, hr2, ChipMemory.get_byte, hb]
    · simpa [ChipRegisters.set_gp] using hi

theorem foldl_set_length (xs : List Nat) (l : List Nat) (f g : Nat → Nat) :
    (xs.foldl (fun acc i => acc.set (f i) (g i)) l).length = l.length := by
  induction xs generalizing l with
  | nil => rfl
  | cons a t ih => rw [List.foldl_cons, ih, List.length_set]

theorem init_ram_length : ChipMemory.init.ram.length = 4096 := by
  show (ChipMemory.load_symbols (List.replicate 4096 0)).length = 4096
  unfold ChipMemory.load_symbols
  rw [foldl_set_length _ _ (fun i => i + 0x050) (fun i => hex_chars.getD i 0)]
  exact List.length_replicate 4096 0

/-! ## Claim theorems -/

/-- C1: the claim states that clear_display and draw_sprite mark the display
modified, so that the next mod_check returns true.  In the source neither
function ever writes the modified field, so the first mod_check after a clear
or a draw still returns false; this theorem evaluates the code at those
failing inputs. -/
theorem c1_modified_flag_never_set :
    ((ChipDisplay.init.clear_display).mod_check).1 = false ∧
    (((ChipDisplay.init.draw_sprite 0 0 [0xF0]).2).mod_check).1 = false := by
  constructor <;> rfl

/-- C2: the claim states that bit (7 - b) of a sprite row, most significant
bit first, lands at column (x + b) mod 64.  The source starts its mask at
0x01 and shifts it left, so bit b lands at column (x + b): drawing the single
byte 0x80 (only bit 7 set) at the origin lights cell 7, not cell 0 as the
claim requires. -/
theorem c2_sprite_drawn_lsb_first :
    ((ChipDisplay.init.draw_sprite 0 0 [0x80]).2.display.getD 7 false = true) ∧
    ((ChipDisplay.init.draw_sprite 0 0 [0x80]).2.display.getD 0 false = false) := by
  constructor <;> decide

/-- C3 counterexample: the claim states that the 17th CALL fails with a
StackOverflow surfaced to the caller as a result value.  Running 17
consecutive CALL 0x300 opcodes from PC = 0x200 instead reaches the unchecked
store stack[16], a panic, modelled by none: execution never returns a result
value at all. -/
theorem c3_seventeenth_call_is_abort : runCalls 17 = none := by rfl

/-- C3 (amended): push_stack with the stack pointer at the stack length (16
entries) and pop_stack on an empty stack abort by an out-of-bounds index
panic instead of returning an error value; 16 consecutive CALLs succeed,
leaving the 16 pushed return addresses on the stack with the stack pointer at
16, and the 17th CALL aborts. -/
theorem c3_stack_faults_panic :
    (∀ (r : ChipRegisters) (addr : Nat),
        r.stack.length ≤ r.sp_reg → r.push_stack addr = none)
  ∧ (∀ r : ChipRegisters, r.sp_reg = 0 → r.pop_stack = none)
  ∧ (runCalls 16).map (fun s => (s.registers.sp_reg, s.registers.stack))
      = some (16, stack_after_16_calls)
  ∧ runCalls 17 = none := by
  refine ⟨?_, ?_, ?_, ?_⟩
  · intro r addr h
    simp [ChipRegisters.push_stack]
    omega
  · intro r h
    simp [ChipRegisters.pop_stack, h]
  · decide
  · rfl

/-- C3 witness: the general abort statements of the amended claim applied at
a full and at an empty register file. -/
theorem c3_stack_faults_panic_witness :
    full_stack_regs.push_stack 0x300 = none ∧ ChipRegisters.init.pop_stack = none :=
  ⟨c3_stack_faults_panic.1 full_stack_regs 0x300 (by decide),
   c3_stack_faults_panic.2.1 ChipRegisters.init (by rfl)⟩

set_option maxRecDepth 4000 in
/-- C4: the claim states that Fx55 stores V0 through Vx inclusive and Fx65
loads V0 through Vx inclusive.  The source loops over 0..x exclusive: with
x = 0, V0 = 7 and I = 0x300, Fx55 stores nothing (RAM byte 0x300 stays 0,
though I is still advanced to 0x301), and with RAM byte 0x300 = 9, Fx65
loads nothing (V0 stays 0).  This theorem evaluates the code at those
failing inputs. -/
theorem c4_fx55_fx65_exclude_vx :
    exByte (sys_store.ex_opcode 0xF055 0) 0x300 = some 0 ∧
    exI (sys_store.ex_opcode 0xF055 0) = some 0x301 ∧
    exGP (sys_load.ex_opcode 0xF065 0) 0 = some 0 := by
  refine ⟨?_, ?_, ?_⟩ <;> decide

set_option maxRecDepth 4000 in
/-- C5: the claim states that Fx29 sets I to 0x050 + 5 * Vx.  The font table
is indeed written at 0x050 during initialization (the glyph bytes 0xF0 at
0x50 and 0x20 at 0x55 confirm it), but the source computes I as the operand
nibble x times 5, reading no register and adding no 0x050 base: with
V1 = 0xA, opcode 0xF129 leaves I = 5 instead of 0x050 + 5 * 0xA = 0x82.
This theorem evaluates the code at that failing input. -/
theorem c5_fx29_ignores_vx_and_font_base :
    exI (sys_font.ex_opcode 0xF129 0) = some 5 ∧
    ChipMemory.init.ram.getD 0x50 0 = 0xF0 ∧
    ChipMemory.init.ram.getD 0x55 0 = 0x20 := by
  refine ⟨?_, ?_, ?_⟩ <;> decide

/-- C6: the claim states that after 8xyE the flag register holds 1 when bit 7
of Vx was set, else 0.  The source stores Vx masked with 0x80 without
normalizing it to one bit: with V1 = 0x80, opcode 0x812E leaves VF = 0x80
(128) rather than 1, while V1 correctly becomes 0.  This theorem evaluates
the code at that failing input. -/
theorem c6_shl_vf_holds_0x80 :
    exGP (sys_shl.ex_opcode 0x812E 0) 15 = some 0x80 ∧
    exGP (sys_shl.ex_opcode 0x812E 0) 1 = some 0 := by
  constructor <;> decide

/-- C7 counterexample: the claim quantifies over every pair of register
indices, but for x = 15 the result write lands on the flag register itself:
with V15 = 5 and V14 = 3, opcode 0x8FE5 leaves VF = 2 (the wrapped
difference), not the no-borrow flag 1 the claim requires. -/
theorem c7_flag_overwritten_when_x_is_15 :
    exGP (sys_sub15.ex_opcode 0x8FE5 0) 15 = some 2 ∧
    exGP (sys_sub15.ex_opcode 0x8FE5 0) 15 ≠ some 1 := by
  constructor <;> decide

/-- C7 (amended): for every pair of register indices x and y with x distinct
from 15, and all register contents, after executing opcode 8xy5 the flag
register VF is 0 if Vx was below Vy and 1 otherwise, and Vx holds the
wrapped difference (Vx - Vy) mod 256; when x = 15 the subsequent result
write overwrites the flag. -/
theorem c7_sub_flags_amended (r : ChipRegisters) (x y : Nat) (hx : x < 16) (hy : y < 16)
    (hx15 : x ≠ 15) (hlen : r.gp_reg.length = 16) :
    exGP (ChipSystem.ex_opcode ⟨r, ChipDisplay.init, ChipMemory.init, ChipKeyboard.init⟩
        (0x8005 + 256 * x + 16 * y) 0) 15
      = some (if r.get_gp x < r.get_gp y then 0 else 1)
  ∧ exGP (ChipSystem.ex_opcode ⟨r, ChipDisplay.init, ChipMemory.init, ChipKeyboard.init⟩
        (0x8005 + 256 * x + 16 * y) 0) x
      = some (u8sub (r.get_gp x) (r.get_gp y)) := by
  have h1 : (0x8005 + 256 * x + 16 * y) / 4096 % 16 = 8 := by omega
  have h2 : (0x8005 + 256 * x + 16 * y) / 256 % 16 = x := by omega
  have h3 : (0x8005 + 256 * x + 16 * y) / 16 % 16 = y := by omega
  have h4 : (0x8005 + 256 * x + 16 * y) % 16 = 5 := by omega
  simp [ChipSystem.ex_opcode, Opcode.new, h1, h2, h3, h4, exGP]
  constructor
  · by_cases hab : r.get_gp x < r.get_gp y
    · simp only [hab, if_true]
      simp only [ChipRegisters.set_gp, ChipRegisters.incr_pc, ChipRegisters.get_gp]
      rw [getD_set_other _ x 15 _ hx15]
      exact getD_set_same _ 15 _ (by omega)
    · simp only [hab, if_false]
      simp only [ChipRegisters.set_gp, ChipRegisters.incr_pc, ChipRegisters.get_gp]
      rw [getD_set_other _ x 15 _ hx15]
      exact getD_set_same _ 15 _ (by omega)
  · by_cases hab : r.get_gp x < r.get_gp y
    · simp only [hab, if_true]
      simp only [ChipRegisters.set_gp, ChipRegisters.incr_pc, ChipRegisters.get_gp]
      exact getD_set_same _ x _ (by simp [hlen]; omega)
    · simp only [hab, if_false]
      simp only [ChipRegisters.set_gp, ChipRegisters.incr_pc, ChipRegisters.get_gp]
      exact getD_set_same _ x _ (by simp [hlen]; omega)

/-- C7 witness: the amended theorem applied at the worked example of the
spec, x = 0, y = 1, V0 = 1, V1 = 2, giving the borrow flag 0 and the wrapped
difference 0xFF. -/
theorem c7_sub_flags_amended_witness :
    exGP (ChipSystem.ex_opcode ⟨sub_borrow_regs, ChipDisplay.init, ChipMemory.init,
        ChipKeyboard.init⟩ (0x8005 + 256 * 0 + 16 * 1) 0) 15 = some 0
  ∧ exGP (ChipSystem.ex_opcode ⟨sub_borrow_regs, ChipDisplay.init, ChipMemory.init,
        ChipKeyboard.init⟩ (0x8005 + 256 * 0 + 16 * 1) 0) 0 = some 0xFF := by
  have h := c7_sub_flags_amended sub_borrow_regs 0 1
    (by decide) (by decide) (by decide) (by decide)
  constructor
  · rw [h.1]; decide
  · rw [h.2]; decide

/-- C8: the claim states that the keyboard holds 16 entries indexed 0 to 15
and that index 15 never goes out of bounds.  The source allocates the key
vector with 15 entries, so reading or writing key 15 is an out-of-bounds
panic, while index 14 still works.  This theorem evaluates the code at the
failing input 15. -/
theorem c8_keyboard_has_15_keys :
    ChipKeyboard.init.keys.length = 15 ∧
    ChipKeyboard.init.get_key 15 = none ∧
    ChipKeyboard.init.set_key 15 true = none ∧
    ChipKeyboard.init.get_key 14 = some false := by
  refine ⟨?_, ?_, ?_, ?_⟩ <;> decide

/-- C9: executing CALL 0x300 at PC = 0x200 and then RET leaves the program
counter at 0x202 (CALL pushes the address of the CALL itself and suppresses
the default advance; RET pops it and the default advance of 2 then applies)
and the stack pointer back at 0. -/
theorem c9_call_ret_returns_to_202 :
    exPC call_then_ret = some 0x202 ∧ exSP call_then_ret = some 0 := by
  constructor <;> rfl

/-- C10: for every operand nibble x and every system state whose RAM has its
fixed 4096-byte size and whose I register keeps the touched block inside RAM,
executing Fx55 advances I to I + x + 1 while executing Fx65 leaves I
unchanged. -/
theorem c10_fx55_advances_i_fx65_preserves_i (sys : ChipSystem) (x : Nat) (hx : x < 16)
    (hram : sys.ram.ram.length = 4096)
    (hi : sys.registers.i_reg + x + 1 < 4096) :
    exI (sys.ex_opcode (0xF055 + 256 * x) 0) = some (sys.registers.i_reg + x + 1)
  ∧ exI (sys.ex_opcode (0xF065 + 256 * x) 0) = some sys.registers.i_reg := by
  have h1 : (0xF055 + 256 * x) / 4096 % 16 = 15 := by omega
  have h2 : (0xF055 + 256 * x) / 256 % 16 = x := by omega
  have h3 : (0xF055 + 256 * x) / 16 % 16 = 5 := by omega
  have h4 : (0xF055 + 256 * x) % 16 = 5 := by omega
  have g1 : (0xF065 + 256 * x) / 4096 % 16 = 15 := by omega
  have g2 : (0xF065 + 256 * x) / 256 % 16 = x := by omega
  have g3 : (0xF065 + 256 * x) / 16 % 16 = 6 := by omega
  have g4 : (0xF065 + 256 * x) % 16 = 5 := by omega
  have hbound : ∀ loc, loc < x → wrap16 (sys.registers.i_reg + loc) < sys.ram.ram.length := by
    intro loc hl
    unfold wrap16
    rw [hram]
    omega
  obtain ⟨m2, hm2, hml⟩ := store_loop_ok sys.registers sys.registers.i_reg sys.ram x hbound
  obtain ⟨r2, hr2, hri⟩ := load_loop_ok sys.ram sys.registers.i_reg sys.registers x hbound
  constructor
  · simp [ChipSystem.ex_opcode, Opcode.new, h1, h2, h3, h4, exI, ChipRegisters.get_i, hm2,
          ChipRegisters.set_i, ChipRegisters.incr_pc, wrap16]
    omega
  · simp [ChipSystem.ex_opcode, Opcode.new, g1, g2, g3, g4, exI, ChipRegisters.get_i, hr2,
          ChipRegisters.incr_pc, hri]

/-- C10 witness: the theorem applied at the concrete state sys_store, with
x = 2, I = 0x300 and a 4096-byte RAM. -/
theorem c10_fx55_advances_i_fx65_preserves_i_witness :
    (2 : Nat) < 16
  ∧ sys_store.ram.ram.length = 4096
  ∧ sys_store.registers.i_reg + 2 + 1 < 4096
  ∧ exI (sys_store.ex_opcode (0xF055 + 256 * 2) 0) = some (sys_store.registers.i_reg + 2 + 1)
  ∧ exI (sys_store.ex_opcode (0xF065 + 256 * 2) 0) = some sys_store.registers.i_reg := by
  have hram : sys_store.ram.ram.length = 4096 := init_ram_length
  have h := c10_fx55_advances_i_fx65_preserves_i sys_store 2 (by decide) hram (by decide)
  exact ⟨by decide, hram, by decide, h.1, h.2⟩
